import Mathlib

/-!
Shallow embedding of the KumaClient repository (src/src/lib.rs).

The entity model (`Monitor`, `MonitorType`, `MonitorMethod`, `ApiResponse`)
is translated field by field from the Rust structs, including the serde
attributes that determine the wire shape.  The client operations are
embedded as pure functions over an explicit cache snapshot:

* the monitor cache `HashMap<String, Monitor>` is modelled as an
  association list `List (String × Monitor)`;
* the busy-wait loop of `reload_monitor_list` is modelled by `reloadWait`,
  a fuel-indexed runner over the sequence of cache lengths observed at
  each poll;
* `add_monitor` is modelled after a successful connect and cache reload,
  with the acknowledgement payload (or its absence within the 20-iteration
  cap) passed explicitly; a `panic` in the acknowledgement callback is an
  explicit outcome flag;
* `search_monitor` / `find_monitor` are modelled with an explicit
  `panicked` result for the `parent.unwrap()` call in the parent filter.
-/

/-- Embeds `enum MonitorType` (lib.rs lines 52-74). -/
inductive MonitorType
  | http
  | port
  | ping
  | keyword
  | grpcKeyword
  | dns
  | docker
  | push
  | steam
  | gamedig
  | group
  | mqtt
  | sqlserver
  | postgres
  | mysql
  | mongodb
  | radius
  | redis
deriving DecidableEq, Repr

/-- Embeds `enum MonitorMethod` (lib.rs lines 76-86). -/
inductive MonitorMethod
  | get
  | post
  | put
  | patch
  | delete
  | head
  | options
deriving DecidableEq, Repr

/-- Embeds `struct Monitor` (lib.rs lines 13-29).  Rust `u8`/`u64` become
`Nat`; the claims never exercise overflow.  Field order follows the source. -/
structure Monitor where
  id : Option Nat
  name : String
  typology : MonitorType
  url : Option String
  parent : Option Nat
  path_name : Option String
  accepted_status_codes : List String
  expiry_notification : Bool
  method : Option MonitorMethod
  interval : Nat
deriving DecidableEq, Repr

/-- Embeds `Monitor::new` (lib.rs lines 32-45). -/
def Monitor.new (name : String) (typology : Option MonitorType) : Monitor where
  id := none
  name := name
  typology := typology.getD .http
  url := none
  parent := none
  path_name := none
  accepted_status_codes := ["200-299"]
  expiry_notification := true
  method := some .head
  interval := 90

/-- Embeds `Monitor::uid` (lib.rs lines 47-49):
`format!("{}-{}", self.parent.unwrap_or(0), self.name)`. -/
def Monitor.uid (m : Monitor) : String :=
  toString (m.parent.getD 0) ++ "-" ++ m.name

/-- Minimal JSON value model for the wire payloads. -/
inductive Json
  | null
  | bool (b : Bool)
  | num (n : Nat)
  | str (s : String)
  | arr (elems : List Json)
  | obj (fields : List (String × Json))

/-- Wire name of a `MonitorType` under `#[serde(rename_all = "lowercase")]`
with the explicit `grpc-keyword` rename (lib.rs lines 52-74). -/
def MonitorType.wireName : MonitorType → String
  | .http => "http"
  | .port => "port"
  | .ping => "ping"
  | .keyword => "keyword"
  | .grpcKeyword => "grpc-keyword"
  | .dns => "dns"
  | .docker => "docker"
  | .push => "push"
  | .steam => "steam"
  | .gamedig => "gamedig"
  | .group => "group"
  | .mqtt => "mqtt"
  | .sqlserver => "sqlserver"
  | .postgres => "postgres"
  | .mysql => "mysql"
  | .mongodb => "mongodb"
  | .radius => "radius"
  | .redis => "redis"

/-- Wire name of a `MonitorMethod` under `#[serde(rename_all = "UPPERCASE")]`
(lib.rs lines 76-86). -/
def MonitorMethod.wireName : MonitorMethod → String
  | .get => "GET"
  | .post => "POST"
  | .put => "PUT"
  | .patch => "PATCH"
  | .delete => "DELETE"
  | .head => "HEAD"
  | .options => "OPTIONS"

/-- Serde encoding of an `Option` field without `skip_serializing_if`:
`None` is emitted as JSON `null`, the field stays present. -/
def optJson (f : α → Json) : Option α → Json
  | none => Json.null
  | some a => f a

/-- Outbound serialization of `Monitor` per the serde derive on lib.rs
lines 13-29: `#[serde(rename_all = "camelCase")]` on the struct, explicit
renames `type` and `accepted_statuscodes`, `#[serde(skip_serializing)]` on
`path_name`, and plain `Option` fields (so an unassigned `id` is emitted
as `null`, not omitted).  `expiry_notification` camel-cases to
`expiryNotification`. -/
def Monitor.serialize (m : Monitor) : List (String × Json) :=
  [("id", optJson Json.num m.id),
   ("name", Json.str m.name),
   ("type", Json.str m.typology.wireName),
   ("url", optJson Json.str m.url),
   ("parent", optJson Json.num m.parent),
   ("accepted_statuscodes", Json.arr (m.accepted_status_codes.map Json.str)),
   ("expiryNotification", Json.bool m.expiry_notification),
   ("method", optJson (fun mm => Json.str mm.wireName) m.method),
   ("interval", Json.num m.interval)]

/-- Embeds `struct ApiResponse` (lib.rs lines 116-122): `ok: bool`,
`msg: Option<String>`, `monitor_id: Option<u8>` renamed `monitorID`. -/
structure ApiResponse where
  ok : Bool
  msg : Option String
  monitor_id : Option Nat
deriving DecidableEq, Repr

/-- First binding of a key in a JSON object. -/
def jsonLookup (fields : List (String × Json)) (key : String) : Option Json :=
  (fields.find? (fun kv => kv.1 == key)).map Prod.snd

/-- Serde decoding of a required `bool` field value. -/
def decodeBool : Json → Option Bool
  | .bool b => some b
  | _ => none

/-- Serde decoding of an `Option<String>` field: missing or `null` is
`None`, a string is `Some`, anything else is a deserialization error. -/
def decodeOptString : Option Json → Option (Option String)
  | none => some none
  | some .null => some none
  | some (.str s) => some (some s)
  | some _ => none

/-- Serde decoding of an `Option<u8>` field: missing or `null` is `None`,
a number in `0..=255` is `Some`, anything else is a deserialization error. -/
def decodeOptU8 : Option Json → Option (Option Nat)
  | none => some none
  | some .null => some none
  | some (.num n) => if n ≤ 255 then some (some n) else none
  | some _ => none

/-- Serde decoding of one `ApiResponse` record: an object with a required
boolean `ok` and optional `msg` / `monitorID`. -/
def decodeApiResponse : Json → Option ApiResponse
  | .obj fields => do
      let okJ ← jsonLookup fields "ok"
      let ok ← decodeBool okJ
      let msg ← decodeOptString (jsonLookup fields "msg")
      let mid ← decodeOptU8 (jsonLookup fields "monitorID")
      pure ⟨ok, msg, mid⟩
  | _ => none

/-- Serde decoding of `Vec<ApiResponse>`: a JSON array whose every element
decodes; any other shape is a deserialization error. -/
def decodeApiList : Json → Option (List ApiResponse)
  | .arr elems => elems.mapM decodeApiResponse
  | _ => none

/-- An acknowledgement payload as delivered to a callback:
`Payload::Binary` or `Payload::String` carrying (parsed) JSON text. -/
inductive AckPayload
  | binary
  | str (j : Json)

/-- Outcome of running the acknowledgement callback of `add_monitor` once:
either it stored a value in the shared response slot, or it panicked. -/
inductive CallbackOutcome
  | panicked
  | stored (v : Nat)
deriving DecidableEq

/-- Embeds the `ack_callback` closure of `add_monitor` (lib.rs lines
230-250).  `Payload::Binary` stores `Some(0)`.  `Payload::String` runs
`serde_json::from_str::<Vec<ApiResponse>>(&data).unwrap()` — a payload
that does not decode makes the `unwrap` panic.  Otherwise the first
record's `ok` flag selects `monitor_id.unwrap_or(0)` or `0`, and an empty
list stores `0`. -/
def ack_callback : AckPayload → CallbackOutcome
  | .binary => .stored 0
  | .str j =>
      match decodeApiList j with
      | none => .panicked
      | some l =>
          match l.head? with
          | some r => if r.ok then .stored (r.monitor_id.getD 0) else .stored 0
          | none => .stored 0

/-- Result value of `add_monitor`: `anyhow::Result<Monitor>`. -/
inductive AddResult
  | ok (m : Monitor)
  | err (msg : String)
deriving DecidableEq

/-- Observable outcome of one `add_monitor` call: the returned result,
whether the `"add"` request was emitted, and whether the acknowledgement
callback panicked on the event-handling thread. -/
structure AddOutcome where
  result : AddResult
  sentAdd : Bool
  callbackPanicked : Bool
deriving DecidableEq

/-- `HashMap::contains_key` on the association-list cache model. -/
def containsKey (cache : List (String × Monitor)) (k : String) : Bool :=
  cache.any (fun kv => kv.1 == k)

/-- Embeds `KumaClient::add_monitor` (lib.rs lines 213-275) after a
successful `connect` and `reload_monitor_list`; `cache` is the refreshed
cache contents.  `ack = none` models the callback not firing within the
20-iteration polling cap, so the response slot stays `None` and the final
`if let` falls through to the error.  A panicking callback dies on the
event-handling thread before touching the response mutex, so the caller
also falls through to the error after the cap; `callbackPanicked` records
the panic. -/
def add_monitor (cache : List (String × Monitor)) (monitor : Monitor)
    (ack : Option AckPayload) : AddOutcome :=
  if containsKey cache monitor.uid then
    { result := .err ("Monitor già presente " ++ monitor.uid),
      sentAdd := false, callbackPanicked := false }
  else
    match ack with
    | none =>
        { result := .err "Errore nella creazione del monitor",
          sentAdd := true, callbackPanicked := false }
    | some p =>
        match ack_callback p with
        | .panicked =>
            { result := .err "Errore nella creazione del monitor",
              sentAdd := true, callbackPanicked := true }
        | .stored v =>
            if 0 < v then
              { result := .ok { monitor with id := some v },
                sentAdd := true, callbackPanicked := false }
            else
              { result := .err "Errore nella creazione del monitor",
                sentAdd := true, callbackPanicked := false }

/-- Result of `search_monitor`: the returned map, or a panic raised by
`monitor.parent.unwrap()` inside the parent-id `retain`. -/
inductive SearchResult
  | panicked
  | found (monitors : List (String × Monitor))
deriving DecidableEq

/-- The `retain` on the name predicate (lib.rs lines 287-289). -/
def retainName (cache : List (String × Monitor)) : Option String → List (String × Monitor)
  | none => cache
  | some name => cache.filter (fun kv => kv.2.name == name)

/-- Embeds `KumaClient::search_monitor` (lib.rs lines 277-296).
`reloadOk = false` models `reload_monitor_list` returning an error, which
the source swallows by returning an empty map; otherwise `cache` is the
refreshed snapshot.  The name `retain` keeps exact name matches; the
parent `retain` evaluates `monitor.parent.unwrap() == parent_id` on every
surviving entry, so it panics as soon as some survivor has no parent. -/
def search_monitor (reloadOk : Bool) (cache : List (String × Monitor))
    (by_name : Option String) (by_parent_id : Option Nat) : SearchResult :=
  if reloadOk then
    let intermediary := retainName cache by_name
    match by_parent_id with
    | none => .found intermediary
    | some pid =>
        if intermediary.any (fun kv => kv.2.parent == none) then .panicked
        else .found (intermediary.filter (fun kv => kv.2.parent == some pid))
  else .found []

/-- Result of `find_monitor`, propagating a `search_monitor` panic. -/
inductive FindResult
  | panicked
  | found (m : Option Monitor)
deriving DecidableEq

/-- Embeds `KumaClient::find_monitor` (lib.rs lines 298-310): runs
`search_monitor` and returns the first value only when the map has
strictly more than one entry. -/
def find_monitor (reloadOk : Bool) (cache : List (String × Monitor))
    (by_name : Option String) (by_parent_id : Option Nat) : FindResult :=
  match search_monitor reloadOk cache by_name by_parent_id with
  | .panicked => .panicked
  | .found l => .found (if 1 < l.length then l.head?.map Prod.snd else none)

/-- Embeds the wait loop of `KumaClient::reload_monitor_list` (lib.rs
lines 200-203): `while monitor_list.len() == 0 { sleep(100ms) }`.
`cacheLen k` is the cache length observed at the k-th poll; `fuel` bounds
how many polls we unfold.  The loop exits (returning the exit poll index)
at the first poll whose length is nonzero; the source has no iteration cap
and no timeout, so exhausted fuel (`none`) means the loop is still
spinning. -/
def reloadWait (cacheLen : Nat → Nat) : Nat → Nat → Option Nat
  | _, 0 => none
  | k, fuel + 1 => if cacheLen k = 0 then reloadWait cacheLen (k + 1) fuel else some k

/-- The wait loop of `reload_monitor_list` terminates on the observation
sequence `cacheLen`: some finite unfolding of the loop exits. -/
def reloadTerminates (cacheLen : Nat → Nat) : Prop :=
  ∃ fuel, (reloadWait cacheLen 0 fuel).isSome

/-- Claim C9: `Monitor::new(x, None)` yields exactly the documented
defaults: kind http, accepted status codes `["200-299"]`, method head,
interval 90, expiry_notification true, and absent id, url and parent. -/
theorem monitor_new_defaults (name : String) :
    Monitor.new name none
      = { id := none, name := name, typology := .http, url := none,
          parent := none, path_name := none,
          accepted_status_codes := ["200-299"], expiry_notification := true,
          method := some .head, interval := 90 } := rfl

/-- Claim C7: `uid` is a pure function of only `parent` (treated as 0 when
absent) and `name`: two monitors agreeing on those yield equal uids
regardless of every other field. -/
theorem uid_pure_of_parent_name (m₁ m₂ : Monitor)
    (hp : m₁.parent.getD 0 = m₂.parent.getD 0) (hn : m₁.name = m₂.name) :
    m₁.uid = m₂.uid := by
  simp [Monitor.uid, hp, hn]

/-- Witness for C7: a monitor with `parent = some 0` and extra fields set
has the same uid as a fresh monitor with `parent = none` and equal name. -/
theorem uid_pure_of_parent_name_witness :
    ({ Monitor.new "svc" none with parent := some 0, url := some "http://x", typology := .ping } : Monitor).uid
      = (Monitor.new "svc" none).uid :=
  uid_pure_of_parent_name _ _ rfl rfl

/-- Claim C4: when the refreshed cache already contains the key
`m.uid()`, `add_monitor` returns the duplicate-monitor error and never
emits the `"add"` creation request. -/
theorem add_monitor_rejects_duplicate (cache : List (String × Monitor))
    (m : Monitor) (ack : Option AckPayload)
    (h : containsKey cache m.uid = true) :
    (add_monitor cache m ack).result = .err ("Monitor già presente " ++ m.uid)
      ∧ (add_monitor cache m ack).sentAdd = false := by
  simp [add_monitor, h]

/-- A monitor named `svc` under parent group 5, as cached. -/
def svcParent5 : Monitor :=
  { Monitor.new "svc" none with parent := some 5 }

/-- A new monitor with the same parent 5 and name `svc` but a url set. -/
def svcParent5Url : Monitor :=
  { Monitor.new "svc" none with parent := some 5, url := some "http://e" }

/-- Witness for C4: a cache holding uid `"5-svc"` makes `add_monitor` of
a monitor with parent 5 and name `"svc"` fail without sending `"add"`. -/
theorem add_monitor_rejects_duplicate_witness :
    (add_monitor [("5-svc", svcParent5)] svcParent5Url none).result
      = .err ("Monitor già presente " ++ svcParent5Url.uid)
      ∧ (add_monitor [("5-svc", svcParent5)] svcParent5Url none).sentAdd = false :=
  add_monitor_rejects_duplicate _ _ _ (by decide)

/-- The concrete success acknowledgement `[{ok: true, monitorID: 42}]`. -/
def successAck42 : Json :=
  Json.arr [Json.obj [("ok", Json.bool true), ("monitorID", Json.num 42)]]

/-- Claim C5: with uid not cached and acknowledgement payload
`[{ok: true, monitorID: 42}]`, `add_monitor` returns `Ok` of the input
monitor with `id := some 42` and every other field unchanged. -/
theorem add_monitor_success_populates_id (cache : List (String × Monitor))
    (m : Monitor) (h : containsKey cache m.uid = false) :
    add_monitor cache m (some (.str successAck42))
      = { result := .ok { m with id := some 42 }, sentAdd := true,
          callbackPanicked := false } := by
  have hcb : ack_callback (.str successAck42) = .stored 42 := rfl
  simp [add_monitor, h, hcb]

/-- Witness for C5: on the empty cache, creating a fresh monitor with the
`[{ok: true, monitorID: 42}]` acknowledgement yields id 42. -/
theorem add_monitor_success_populates_id_witness :
    add_monitor [] (Monitor.new "svc" none) (some (.str successAck42))
      = { result := .ok { Monitor.new "svc" none with id := some 42 },
          sentAdd := true, callbackPanicked := false } :=
  add_monitor_success_populates_id [] (Monitor.new "svc" none) rfl

/-- Claim C10: when the first acknowledgement record has `ok = true` but
`monitorID` absent or 0, the stored id is 0, the `0 < id` gate fails, and
`add_monitor` returns the creation error instead of a populated monitor. -/
theorem add_monitor_rejects_nonpositive_id (cache : List (String × Monitor))
    (m : Monitor) (j : Json) (l : List ApiResponse) (r : ApiResponse)
    (h : containsKey cache m.uid = false)
    (hdec : decodeApiList j = some l) (hhd : l.head? = some r)
    (hok : r.ok = true) (hid : r.monitor_id.getD 0 = 0) :
    (add_monitor cache m (some (.str j))).result
      = .err "Errore nella creazione del monitor" := by
  have hcb : ack_callback (.str j) = .stored 0 := by
    simp [ack_callback, hdec, hhd, hok, hid]
  simp [add_monitor, h, hcb]

/-- Witness for C10: the acknowledgement `[{ok: true}]` (no monitorID) on
the empty cache produces the creation error. -/
theorem add_monitor_rejects_nonpositive_id_witness :
    (add_monitor [] (Monitor.new "svc" none)
        (some (.str (Json.arr [Json.obj [("ok", Json.bool true)]])))).result
      = .err "Errore nella creazione del monitor" :=
  add_monitor_rejects_nonpositive_id [] (Monitor.new "svc" none)
    (Json.arr [Json.obj [("ok", Json.bool true)]])
    [{ ok := true, msg := none, monitor_id := none }]
    { ok := true, msg := none, monitor_id := none } rfl rfl rfl rfl rfl

/-- Claim C2 (failing input): an acknowledgement payload that is valid
JSON but not an array of records — `1`, or `[7]` — makes the callback's
`serde_json::from_str(..).unwrap()` panic on the event-handling thread,
contradicting the never-panic requirement (the caller still receives the
creation error after the 20-iteration cap). -/
theorem add_monitor_callback_panics_on_malformed_ack :
    (add_monitor [] (Monitor.new "svc" none)
        (some (.str (Json.num 1)))).callbackPanicked = true
      ∧ (add_monitor [] (Monitor.new "svc" none)
          (some (.str (Json.arr [Json.num 7])))).callbackPanicked = true
      ∧ (add_monitor [] (Monitor.new "svc" none)
          (some (.str (Json.num 1)))).result
        = .err "Errore nella creazione del monitor" := by
  refine ⟨rfl, rfl, rfl⟩

/-- Claim C6 (counterexample): serializing `Monitor::new("x", None)` —
whose id is unassigned — still emits an `id` key (as null), and emits
`expiryNotification` (camelCase) rather than the claimed
`expiry_notification`. -/
theorem serialize_wire_names_counterexample :
    ((Monitor.new "x" none).serialize.map Prod.fst).contains "expiry_notification" = false
      ∧ ((Monitor.new "x" none).serialize.map Prod.fst).contains "expiryNotification" = true
      ∧ ((Monitor.new "x" none).serialize.map Prod.fst).contains "id" = true
      ∧ (Monitor.new "x" none).id = none := by
  refine ⟨rfl, rfl, rfl, rfl⟩

/-- Claim C6 (amended): every Monitor serializes to exactly the keys
`id, name, type, url, parent, accepted_statuscodes, expiryNotification,
method, interval` in order — so `path_name` is never transmitted — and an
unassigned id is emitted as JSON null rather than omitted. -/
theorem serialize_wire_shape (m : Monitor) :
    m.serialize.map Prod.fst
        = ["id", "name", "type", "url", "parent", "accepted_statuscodes",
           "expiryNotification", "method", "interval"]
      ∧ (m.id = none → jsonLookup m.serialize "id" = some Json.null) := by
  refine ⟨rfl, fun h => ?_⟩
  simp [Monitor.serialize, jsonLookup, h, optJson]

/-- Witness for C6 (amended): the key list and the null id, evaluated on
`Monitor.new "x" none`. -/
theorem serialize_wire_shape_witness :
    (Monitor.new "x" none).serialize.map Prod.fst
        = ["id", "name", "type", "url", "parent", "accepted_statuscodes",
           "expiryNotification", "method", "interval"]
      ∧ jsonLookup (Monitor.new "x" none).serialize "id" = some Json.null :=
  ⟨(serialize_wire_shape (Monitor.new "x" none)).1,
    (serialize_wire_shape (Monitor.new "x" none)).2 rfl⟩

/-- An exited `reloadWait` saw a nonzero cache length at its exit poll. -/
theorem reloadWait_exit_len_ne_zero (cacheLen : Nat → Nat) :
    ∀ fuel k j, reloadWait cacheLen k fuel = some j → cacheLen j ≠ 0 := by
  intro fuel
  induction fuel with
  | zero => intro k j h; simp [reloadWait] at h
  | succ n ih =>
      intro k j h
      by_cases h0 : cacheLen k = 0
      · rw [reloadWait, if_pos h0] at h
        exact ih (k + 1) j h
      · rw [reloadWait, if_neg h0] at h
        injection h with h2
        rw [← h2]
        exact h0

/-- If some poll within the fuel sees a nonzero length, `reloadWait`
exits. -/
theorem reloadWait_isSome_of_nonzero (cacheLen : Nat → Nat) :
    ∀ fuel k, (∃ d, d < fuel ∧ cacheLen (k + d) ≠ 0) →
      (reloadWait cacheLen k fuel).isSome := by
  intro fuel
  induction fuel with
  | zero => rintro k ⟨d, hd, _⟩; omega
  | succ n ih =>
      rintro k ⟨d, hd, hne⟩
      by_cases h0 : cacheLen k = 0
      · have hd0 : d ≠ 0 := by
          rintro rfl
          rw [Nat.add_zero] at hne
          exact hne h0
        obtain ⟨d', rfl⟩ : ∃ d', d = d' + 1 := ⟨d - 1, by omega⟩
        have hxt : cacheLen (k + 1 + d') ≠ 0 := by
          have he : k + 1 + d' = k + (d' + 1) := by omega
          rw [he]
          exact hne
        have := ih (k + 1) ⟨d', by omega, hxt⟩
        rw [reloadWait, if_pos h0]
        exact this
      · rw [reloadWait, if_neg h0]
        rfl

/-- Claim C1 (counterexample): when the `monitorList` push never arrives
— the observed cache length is 0 at every poll — the wait loop of
`reload_monitor_list` never exits, however far it is unfolded: the source
has no timeout and no `ListRefreshTimedOut` return at all. -/
theorem reload_wait_never_exits_on_empty_cache :
    ¬ reloadTerminates (fun _ => 0) := by
  rintro ⟨fuel, h⟩
  obtain ⟨j, hj⟩ := Option.isSome_iff_exists.mp h
  exact reloadWait_exit_len_ne_zero (fun _ => 0) fuel 0 j hj rfl

/-- Claim C1 (amended): the wait loop of `reload_monitor_list` terminates
exactly when the cache becomes non-empty at some poll; it returns no
timeout error, and with a forever-empty cache it spins forever. -/
theorem reload_wait_terminates_iff (cacheLen : Nat → Nat) :
    reloadTerminates cacheLen ↔ ∃ k, cacheLen k ≠ 0 := by
  constructor
  · rintro ⟨fuel, h⟩
    obtain ⟨j, hj⟩ := Option.isSome_iff_exists.mp h
    exact ⟨j, reloadWait_exit_len_ne_zero cacheLen fuel 0 j hj⟩
  · rintro ⟨k, hk⟩
    refine ⟨k + 1, reloadWait_isSome_of_nonzero cacheLen (k + 1) 0 ⟨k, by omega, ?_⟩⟩
    rw [Nat.zero_add]
    exact hk

/-- Claim C3: whenever `search_monitor` returns a map `l`, `find_monitor`
returns a monitor exactly when `l` has strictly more than one entry; in
particular a single match yields `none`. -/
theorem find_monitor_more_than_one (reloadOk : Bool)
    (cache : List (String × Monitor)) (by_name : Option String)
    (by_parent_id : Option Nat) (l : List (String × Monitor))
    (h : search_monitor reloadOk cache by_name by_parent_id = .found l) :
    ((∃ m, find_monitor reloadOk cache by_name by_parent_id = .found (some m))
        ↔ 1 < l.length)
      ∧ (l.length = 1 →
          find_monitor reloadOk cache by_name by_parent_id = .found none) := by
  have hf : find_monitor reloadOk cache by_name by_parent_id
      = .found (if 1 < l.length then l.head?.map Prod.snd else none) := by
    unfold find_monitor
    rw [h]
  refine ⟨⟨?_, ?_⟩, ?_⟩
  · rintro ⟨m, hm⟩
    rw [hf] at hm
    by_contra hlen
    rw [if_neg hlen] at hm
    simp at hm
  · intro hlen
    obtain ⟨a, ha⟩ : ∃ a, l.head? = some a := by
      cases l with
      | nil => simp at hlen
      | cons a t => exact ⟨a, rfl⟩
    refine ⟨a.2, ?_⟩
    rw [hf, if_pos hlen, ha]
    rfl
  · intro hlen
    rw [hf, if_neg (by omega)]

/-- Witness for C3: a cache with exactly one entry and no predicates
yields exactly one match, and `find_monitor` returns no monitor. -/
theorem find_monitor_single_match_witness :
    find_monitor true [("0-a", Monitor.new "a" none)] none none = .found none :=
  (find_monitor_more_than_one true [("0-a", Monitor.new "a" none)] none none
      [("0-a", Monitor.new "a" none)] rfl).2 rfl

/-- A top-level group monitor as the server would push it: no parent. -/
def groupNoParent : Monitor :=
  { Monitor.new "grp" none with typology := .group }

/-- Claim C8 (counterexample): on a snapshot holding a monitor with no
parent, supplying `by_parent_id` makes the parent `retain` evaluate
`monitor.parent.unwrap()` on it and panic, instead of keeping exactly the
monitors whose parent id matches (which here would be the empty map). -/
theorem search_monitor_parent_filter_panics :
    search_monitor true [("0-grp", groupNoParent)] none (some 1) = .panicked
      ∧ search_monitor true [("0-grp", groupNoParent)] none (some 1)
          ≠ .found [] := by
  refine ⟨rfl, ?_⟩
  intro h
  exact SearchResult.noConfusion h

/-- Membership in the name `retain`: an entry survives exactly when it is
in the cache and matches the name predicate when one is supplied. -/
theorem mem_retainName (cache : List (String × Monitor)) (n : Option String)
    (kv : String × Monitor) :
    kv ∈ retainName cache n
      ↔ kv ∈ cache ∧ ∀ x, n = some x → kv.2.name = x := by
  cases n with
  | none => simp [retainName]
  | some x =>
      simp only [retainName, List.mem_filter, beq_iff_eq]
      constructor
      · rintro ⟨hm, he⟩
        exact ⟨hm, fun y hy => by rw [← Option.some.inj hy]; exact he⟩
      · rintro ⟨hm, he⟩
        exact ⟨hm, he x rfl⟩

/-- Claim C8 (amended): `search_monitor` returns the empty map when the
refresh fails; with no predicates it returns the full cache; when it
returns a map, an entry is kept exactly when it is cached and matches the
supplied name and parent-id predicates; and it panics exactly when
`by_parent_id` is supplied and some name-matching cached monitor has no
parent (the `parent.unwrap()` call). -/
theorem search_monitor_filter_spec (cache : List (String × Monitor))
    (by_name : Option String) (by_parent_id : Option Nat) :
    search_monitor false cache by_name by_parent_id = .found []
      ∧ (by_name = none → by_parent_id = none →
          search_monitor true cache by_name by_parent_id = .found cache)
      ∧ (∀ l, search_monitor true cache by_name by_parent_id = .found l →
          ∀ kv, kv ∈ l ↔ kv ∈ cache
            ∧ (∀ x, by_name = some x → kv.2.name = x)
            ∧ (∀ y, by_parent_id = some y → kv.2.parent = some y))
      ∧ (search_monitor true cache by_name by_parent_id = .panicked
          ↔ ∃ y, by_parent_id = some y ∧ ∃ kv ∈ cache,
              (∀ x, by_name = some x → kv.2.name = x) ∧ kv.2.parent = none) := by
  refine ⟨rfl, ?_, ?_, ?_⟩
  · rintro rfl rfl
    rfl
  · intro l hl kv
    cases hp : by_parent_id with
    | none =>
        rw [hp] at hl
        simp only [search_monitor, if_pos rfl] at hl
        injection hl with hl2
        rw [← hl2, mem_retainName]
        constructor
        · rintro ⟨hm, hn⟩
          exact ⟨hm, hn, fun y hy => by cases hy⟩
        · rintro ⟨hm, hn, _⟩
          exact ⟨hm, hn⟩
    | some pid =>
        rw [hp] at hl
        simp only [search_monitor, if_pos rfl] at hl
        by_cases hany : (retainName cache by_name).any (fun kv => kv.2.parent == none)
        · rw [if_pos hany] at hl
          exact absurd hl (fun h => SearchResult.noConfusion h)
        · rw [if_neg hany] at hl
          injection hl with hl2
          rw [← hl2]
          simp only [List.mem_filter, mem_retainName, beq_iff_eq]
          constructor
          · rintro ⟨⟨hm, hn⟩, hpe⟩
            exact ⟨hm, hn, fun y hy => by rw [← Option.some.inj hy]; exact hpe⟩
          · rintro ⟨hm, hn, hpe⟩
            exact ⟨⟨hm, hn⟩, hpe pid rfl⟩
  · cases hp : by_parent_id with
    | none =>
        simp only [search_monitor, if_pos rfl]
        constructor
        · intro h
          exact absurd h (fun h2 => SearchResult.noConfusion h2)
        · rintro ⟨y, hy, _⟩
          cases hy
    | some pid =>
        simp only [search_monitor, if_pos rfl]
        by_cases hany : (retainName cache by_name).any (fun kv => kv.2.parent == none)
        · rw [if_pos hany]
          simp only [List.any_eq_true, beq_iff_eq] at hany
          obtain ⟨kv, hkv, hpar⟩ := hany
          rw [mem_retainName] at hkv
          constructor
          · intro _
            exact ⟨pid, rfl, kv, hkv.1, hkv.2, hpar⟩
          · intro _
            rfl
        · rw [if_neg hany]
          constructor
          · intro h
            exact absurd h (fun h2 => SearchResult.noConfusion h2)
          · rintro ⟨y, hy, kv, hkv, hn, hnone⟩
            exfalso
            apply hany
            simp only [List.any_eq_true, beq_iff_eq]
            exact ⟨kv, (mem_retainName cache by_name kv).mpr ⟨hkv, hn⟩, hnone⟩

/-- Witness for C8 (amended): with predicates absent, the full
single-entry cache comes back after a successful refresh. -/
theorem search_monitor_filter_spec_witness :
    search_monitor true [("0-a", Monitor.new "a" none)] none none
      = .found [("0-a", Monitor.new "a" none)] :=
  (search_monitor_filter_spec [("0-a", Monitor.new "a" none)] none none).2.1 rfl rfl
